import Mathlib

/-!
Shallow embedding of the mix-api client library (src/src/MixClient.js) and
verification of its specification.

MixClient.js composes three collaborator modules (MixSearch.js,
MixSystemStats.js, MixConnector.js) that are not part of the sources at hand;
where their behaviour decides a property they are modelled from the spec, with
a doc comment saying so.  Promises are modelled by an explicit outcome type
with a `pending` case for a promise whose executor never calls resolve or
reject (an unhandled rejection inside the executor leaves the outer promise
unsettled forever).
-/

/-- Outcome of a JS Promise as observed by its caller: resolved with a value,
rejected with an error message, or left pending forever (the executor settles
neither way, e.g. because a rejection inside it is unhandled). -/
inductive Outcome (α : Type) where
  | resolved : α → Outcome α
  | rejected : String → Outcome α
  | pending : Outcome α
deriving DecidableEq, Repr

/-- Whether an `Except` is in the error case. -/
def isErr {ε α : Type} : Except ε α → Bool
  | .error _ => true
  | .ok _ => false

/-- An Ethereum block as the client uses it: hash, height, timestamp,
difficulty (the fields named by the spec's data model). -/
structure Block where
  hash : String
  number : Nat
  timestamp : Int
  difficulty : ℚ
deriving DecidableEq, Repr

/-- The record resolved by `doSearch`: the JS object literal always carries
all three keys `block`, `account`, `transaction`, each possibly null. -/
structure SearchResult where
  block : Option Block
  account : Option ℚ
  transaction : Option String
deriving DecidableEq, Repr

/-- Modelled from the spec: MixSearch.js is not under src/.  Per §6 and §7 of
the spec each lookup promise resolves with the entity when found, resolves
with an empty (not-found) value when the entity does not exist, and rejects
only on a transport-level failure.  A provider value records the settled
outcome of each of the three lookup promises for a given query. -/
structure SearchProvider where
  getBlock : Except String (Option Block)
  getBalance : Except String (Option ℚ)
  getTransaction : Except String (Option String)

/-- Embedding of `MixClient.doSearch` (MixClient.js lines 168-203): the three
lookups are joined with `Promise.all`, whose result resolves with the list of
values when every promise resolves and otherwise rejects with the error of the
first rejected promise (modelled here in array order: block, balance,
transaction).  A resolution builds the object literal with the three slots. -/
def doSearch (p : SearchProvider) : Outcome SearchResult :=
  match p.getBlock with
  | .error e => .rejected e
  | .ok b =>
    match p.getBalance with
    | .error e => .rejected e
    | .ok a =>
      match p.getTransaction with
      | .error e => .rejected e
      | .ok t => .resolved ⟨b, a, t⟩

/-- Modelled from the spec: MixSystemStats.js is not under src/.  The
connectivity state fetched by `getState` is, per §2 and §4.3 of the spec, the
node's connectivity report, carrying at least whether the node is connected. -/
structure NodeState where
  connected : Bool
deriving DecidableEq, Repr

/-- Modelled from the spec: MixSystemStats.js is not under src/.  A provider
value records the settled outcome of each asynchronous primitive used by
`getSystemStats` — connectivity state, peer count, gas price, and the
latest-blocks window fetch — each rejecting only on transport failure. -/
structure StatsProvider where
  getState : Except String NodeState
  getPeerCount : Except String Nat
  getGasPrice : Except String ℚ
  getLatestBlocks : Except String (List Block)

/-- Modelled from the spec: `getAverageDifficulty` lives in MixSystemStats.js,
not under src/.  Per §4.3 it is the arithmetic mean of the `difficulty` field
across all blocks in the window (a pure function of the window). -/
def getAverageDifficulty (w : List Block) : ℚ :=
  (w.map Block.difficulty).sum / (w.length : ℚ)

/-- Modelled from the spec: `getBlockTimes` lives in MixSystemStats.js, not
under src/.  Per §4.3 it is the ordered sequence of timestamp deltas between
each block and its predecessor in the window (length = window size − 1); the
window is ordered newest-first. -/
def getBlockTimes (w : List Block) : List Int :=
  List.zipWith (fun a b => a.timestamp - b.timestamp) w w.tail

/-- The timestamp delta between the two most recent blocks of the window
(0 when the window has fewer than 2 blocks). -/
def recentDelta : List Block → Int
  | b0 :: b1 :: _ => b0.timestamp - b1.timestamp
  | _ => 0

/-- Modelled from the spec: `getHashRate` lives in MixSystemStats.js, not
under src/.  Per §4.3 the hash rate is a pure function of the block window in
use for the current stats computation (recorded by the preceding
`getBlockTimes` call, since `getHashRate()` takes no argument in
MixClient.js): the most recent difficulty divided by the most recent
block-time delta, and zero when that delta is zero or the window has fewer
than 2 blocks. -/
def getHashRate (w : List Block) : ℚ :=
  match w with
  | b0 :: b1 :: _ =>
    let dt := b0.timestamp - b1.timestamp
    if dt = 0 then 0 else b0.difficulty / (dt : ℚ)
  | _ => 0

/-- The stats object resolved by `getSystemStats` (MixClient.js lines
221-249): connectivity state, peer count, gas price, the block window, and
the three derived metrics. -/
structure SystemStats where
  state : NodeState
  peerCount : Nat
  gasPrice : ℚ
  latestBlocks : List Block
  difficulty : ℚ
  blockTimes : List Int
  hashRate : ℚ
deriving DecidableEq, Repr

/-- One run of `getSystemStats`: the outcome of the returned promise, flags
recording which of the three optional fetches were issued, and the
aggregator's stored block window after the call (replaced wholesale whenever
a window is fetched, per §3 of the spec). -/
structure StatsRun where
  outcome : Outcome SystemStats
  peerCountIssued : Bool
  gasPriceIssued : Bool
  latestBlocksIssued : Bool
  finalWindow : List Block
deriving DecidableEq, Repr

/-- Embedding of `MixClient.getSystemStats` (MixClient.js lines 215-266).
The executor first awaits `getState`; its `.then` has no rejection handler,
so if `getState` rejects, nothing is issued and the outer promise never
settles (pending).  When `getState` resolves, `stats.state` is recorded and
the fan-out is issued unconditionally — the resolved state value is not
inspected.  The fan-out array is `[getPeerCount, getGasPrice]` plus
`getLatestBlocks` exactly when no `latestBlocks` argument was supplied;
`Promise.all` rejects with the first error (modelled in array order) via the
`.catch(reject)` handler, and otherwise the stats object is built with
`stats.latestBlocks = latestBlocks || results[2]` and the derived metrics of
that window.  `stored` is the aggregator's cached window going in. -/
def getSystemStats (p : StatsProvider) (stored : List Block)
    (latestBlocks : Option (List Block)) : StatsRun :=
  match p.getState with
  | .error _ => ⟨.pending, false, false, false, stored⟩
  | .ok st =>
    let fetchWindow := latestBlocks.isNone
    let stored' :=
      match latestBlocks, p.getLatestBlocks with
      | none, .ok w => w
      | _, _ => stored
    match p.getPeerCount with
    | .error e => ⟨.rejected e, true, true, fetchWindow, stored'⟩
    | .ok pc =>
      match p.getGasPrice with
      | .error e => ⟨.rejected e, true, true, fetchWindow, stored'⟩
      | .ok gp =>
        match latestBlocks with
        | some w =>
          ⟨.resolved ⟨st, pc, gp, w, getAverageDifficulty w, getBlockTimes w,
            getHashRate w⟩, true, true, fetchWindow, stored'⟩
        | none =>
          match p.getLatestBlocks with
          | .error e => ⟨.rejected e, true, true, fetchWindow, stored'⟩
          | .ok w =>
            ⟨.resolved ⟨st, pc, gp, w, getAverageDifficulty w, getBlockTimes w,
              getHashRate w⟩, true, true, fetchWindow, stored'⟩

/-- Embedding of `MixClient.updateBlocks` (MixClient.js lines 274-281): it
calls `setLatestBlocks(latestBlocks)` — replacing the aggregator's stored
window wholesale — and then returns `getSystemStats(latestBlocks)`. -/
def updateBlocks (p : StatsProvider) (stored : List Block)
    (latestBlocks : List Block) : StatsRun :=
  let _ := stored
  getSystemStats p latestBlocks (some latestBlocks)

/-- The registry of identifying-block hashes used by `getBlockchainName`
(MixClient.js lines 90-94), as a lookup function. -/
def blockchainHashes (h : String) : Option String :=
  if h = "0x4fa57903dad05875ddf78030c16b5da886f7d81714cf66946a4c02566dbb2af5" then
    some "Mix"
  else if h = "0x87b2bc3f12e3ded808c6d4b9b528381fa2a7e95ff2368ba93191a9495daa7f50" then
    some "Ethereum"
  else if h = "0xab7668dfd3bedcf9da505d69306e8fd12ad78116429cf8880a9942c6f0605b60" then
    some "Ethereum Classic"
  else
    none

/-- The fork-disambiguating block height fetched by `getBlockchainName`
(MixClient.js line 89). -/
def IDENTIFYING_BLOCK : Nat := 1920001

/-- Embedding of `MixClient.getBlockchainName` (MixClient.js lines 87-118).
`fetchBlock` gives the settled outcome of `getBlock n` for each height; the
method fetches the block at `IDENTIFYING_BLOCK` and resolves with the
registry entry for its hash, or with "Unknown blockchain" when the hash is
absent.  The `.then` has no rejection handler and the executor has no other
path to `reject`: if the fetch rejects, the outer promise never settles; if
the fetch resolves with a not-found (null) block, reading `block.hash` throws
inside the callback and the outer promise likewise never settles. -/
def getBlockchainName (fetchBlock : Nat → Except String (Option Block)) :
    Outcome String :=
  match fetchBlock IDENTIFYING_BLOCK with
  | .error _ => .pending
  | .ok none => .pending
  | .ok (some b) =>
    match blockchainHashes b.hash with
    | none => .resolved "Unknown blockchain"
    | some name => .resolved name

/-- A web3 provider object as the constructor handles it: its connectivity
report plus an identity tag so distinct provider objects can be told apart. -/
structure Web3 where
  id : Nat
  connected : Bool
deriving DecidableEq, Repr

/-- The ambient environment the `MixClient` constructor reads: whether
`localStorage` exists and what `getItem` returns for the stored node URI,
what connecting to a given URI yields, and the globally injected `web3`
object (Metamask), if any.  The `connect` field is modelled from the spec:
MixConnector.js is not under src/; per §9 a connection attempt yields either
a live provider or nothing. -/
structure CtorEnv where
  localStorageDefined : Bool
  localStorageURI : Option String
  connect : String → Option Web3
  globalWeb3 : Option Web3

/-- The result of running the constructor: either the constructed client
(carrying the provider it settled on) or the thrown error message, together
with a record of which URI (if any) a connection was attempted to and whether
the globally injected provider was consulted. -/
structure CtorOutcome where
  result : Except String Web3
  connectAttempted : Option String
  globalUsed : Bool

/-- The node URI in effect after the parameter/localStorage steps of the
constructor (MixClient.js lines 41-48): the parameter when supplied,
otherwise the stored value when `localStorage` is defined. -/
def effectiveURI (env : CtorEnv) (nodeURI : Option String) : Option String :=
  match nodeURI with
  | some u => some u
  | none => if env.localStorageDefined then env.localStorageURI else none

/-- The `this._web3` value after the three assignment steps of the
constructor (MixClient.js lines 50-67): the supplied web3 object takes
precedence; else a connection to the effective URI when one is set; else the
globally injected provider. -/
def selectWeb3 (env : CtorEnv) (nodeURI : Option String)
    (web3Object : Option Web3) : Option Web3 :=
  match web3Object with
  | some w => some w
  | none =>
    match effectiveURI env nodeURI with
    | some u =>
      match env.connect u with
      | some w => some w
      | none => env.globalWeb3
    | none => env.globalWeb3

/-- Embedding of the `MixClient` constructor (MixClient.js lines 35-78),
tracking which connection paths were exercised.  After the provider is
selected, the connection test `!this._web3 || !this._web3.isConnected()`
throws "Not connected to network". -/
def mixClientCtor (env : CtorEnv) (nodeURI : Option String)
    (web3Object : Option Web3) : CtorOutcome :=
  let attempted : Option String :=
    match web3Object with
    | some _ => none
    | none => effectiveURI env nodeURI
  let selected := selectWeb3 env nodeURI web3Object
  let usedGlobal : Bool :=
    web3Object.isNone &&
      (match effectiveURI env nodeURI with
       | some u => (env.connect u).isNone
       | none => true) &&
      env.globalWeb3.isSome
  match selected with
  | none => ⟨.error "Not connected to network", attempted, usedGlobal⟩
  | some w =>
    if w.connected then ⟨.ok w, attempted, usedGlobal⟩
    else ⟨.error "Not connected to network", attempted, usedGlobal⟩

/-- C1 counterexample: a query for which the block lookup fails with a
transport-level error while the balance lookup succeeds (a balance was found)
and the transaction lookup returns not-found.  `doSearch` rejects as a whole,
refuting the claim that it fails only when all three lookups fail with a
transport-level error and that a failed lookup never aborts the others. -/
theorem doSearch_single_error_aborts :
    doSearch ⟨.error "timeout", .ok (some 5), .ok none⟩ = .rejected "timeout" ∧
      (SearchProvider.mk (.error "timeout") (.ok (some 5)) (.ok none)).getBalance =
        .ok (some 5) ∧
      (SearchProvider.mk (.error "timeout") (.ok (some 5)) (.ok none)).getTransaction =
        .ok none :=
  ⟨rfl, rfl, rfl⟩

/-- C1 (amended): `doSearch` fails as a whole exactly when at least one of
the three lookups fails with a transport-level error; a not-found (empty)
result never aborts the others, and when every lookup settles successfully
the call resolves with the three slot values — in particular, when exactly
one lookup finds a match and the other two return not-found, only that slot
is populated and the call does not fail. -/
theorem doSearch_error_policy (p : SearchProvider) :
    ((∃ e, doSearch p = .rejected e) ↔
      (isErr p.getBlock = true ∨ isErr p.getBalance = true ∨
        isErr p.getTransaction = true)) ∧
      (∀ b a t, p.getBlock = .ok b → p.getBalance = .ok a →
        p.getTransaction = .ok t → doSearch p = .resolved ⟨b, a, t⟩) := by
  rcases p with ⟨gb, ga, gt⟩
  cases gb <;> cases ga <;> cases gt <;> simp [doSearch, isErr]

/-- Witness for C1's amended theorem: a concrete query where only the block
lookup finds a match and the other two return not-found resolves with only
the block slot populated. -/
theorem doSearch_error_policy_witness :
    doSearch ⟨.ok (some ⟨"0xb", 7, 100, 3⟩), .ok none, .ok none⟩ =
      .resolved ⟨some ⟨"0xb", 7, 100, 3⟩, none, none⟩ :=
  (doSearch_error_policy ⟨.ok (some ⟨"0xb", 7, 100, 3⟩), .ok none, .ok none⟩).2
    (some ⟨"0xb", 7, 100, 3⟩) none none rfl rfl rfl

/-- C9: every `SearchResult` that `doSearch` successfully resolves carries
all three slots — block, account, transaction — each equal to the value its
lookup settled with, even when that value is empty. -/
theorem doSearch_resolved_slots (p : SearchProvider) (r : SearchResult)
    (h : doSearch p = .resolved r) :
    p.getBlock = .ok r.block ∧ p.getBalance = .ok r.account ∧
      p.getTransaction = .ok r.transaction := by
  rcases p with ⟨gb, ga, gt⟩
  cases gb <;> cases ga <;> cases gt <;> simp_all [doSearch]
  exact ⟨congrArg SearchResult.block h, congrArg SearchResult.account h,
    congrArg SearchResult.transaction h⟩

/-- Witness for C9: a concrete resolved search where all three slots are
present, two of them empty. -/
theorem doSearch_resolved_slots_witness :
    (SearchProvider.mk (.ok none) (.ok (some 5)) (.ok none)).getBlock =
        .ok (SearchResult.mk none (some 5) none).block ∧
      (SearchProvider.mk (.ok none) (.ok (some 5)) (.ok none)).getBalance =
        .ok (SearchResult.mk none (some 5) none).account ∧
      (SearchProvider.mk (.ok none) (.ok (some 5)) (.ok none)).getTransaction =
        .ok (SearchResult.mk none (some 5) none).transaction :=
  doSearch_resolved_slots ⟨.ok none, .ok (some 5), .ok none⟩ ⟨none, some 5, none⟩ rfl

/-- C4 counterexample: when fetching the identifying block fails with a
transport-level error, `getBlockchainName` does not propagate a retrieval
error — the promise it returns never settles, because the `.then` chain has
no rejection handler and the executor never calls `reject`. -/
theorem getBlockchainName_transport_failure_hangs :
    getBlockchainName (fun _ => .error "network down") = .pending :=
  rfl

/-- C4 (amended): when the identifying block is fetched, a hash present in
the registry resolves to exactly that entry's chain name and an absent hash
resolves to the "Unknown blockchain" sentinel without error; but a transport
failure fetching the block does not propagate as a retrieval error — the
returned promise never settles. -/
theorem getBlockchainName_cases (f : Nat → Except String (Option Block)) :
    (∀ b, f IDENTIFYING_BLOCK = .ok (some b) →
      getBlockchainName f =
        .resolved ((blockchainHashes b.hash).getD "Unknown blockchain")) ∧
      (∀ e, f IDENTIFYING_BLOCK = .error e → getBlockchainName f = .pending) := by
  constructor
  · intro b h
    cases hbh : blockchainHashes b.hash <;>
      simp [getBlockchainName, h, hbh]
  · intro e h
    simp [getBlockchainName, h]

/-- Witness for C4's amended theorem: fetching a block carrying the Mix
registry hash resolves to "Mix". -/
theorem getBlockchainName_cases_witness :
    getBlockchainName (fun _ =>
        .ok (some ⟨"0x4fa57903dad05875ddf78030c16b5da886f7d81714cf66946a4c02566dbb2af5",
          1920001, 0, 0⟩)) =
      .resolved ((blockchainHashes
        "0x4fa57903dad05875ddf78030c16b5da886f7d81714cf66946a4c02566dbb2af5").getD
          "Unknown blockchain") :=
  (getBlockchainName_cases (fun _ =>
      .ok (some ⟨"0x4fa57903dad05875ddf78030c16b5da886f7d81714cf66946a4c02566dbb2af5",
        1920001, 0, 0⟩))).1
    ⟨"0x4fa57903dad05875ddf78030c16b5da886f7d81714cf66946a4c02566dbb2af5",
      1920001, 0, 0⟩ rfl

/-- C2: once the state fetch has resolved, if any of the concurrently issued
fetches — peer count, gas price, or (when no window was supplied) the block
window — fails, `getSystemStats` rejects as a whole with one of those errors
and never resolves with a partially populated stats object. -/
theorem getSystemStats_atomic (p : StatsProvider) (stored : List Block)
    (lb : Option (List Block)) (st : NodeState)
    (hst : p.getState = .ok st)
    (hfail : isErr p.getPeerCount = true ∨ isErr p.getGasPrice = true ∨
      (lb = none ∧ isErr p.getLatestBlocks = true)) :
    ∃ e, (getSystemStats p stored lb).outcome = .rejected e ∧
      (p.getPeerCount = .error e ∨ p.getGasPrice = .error e ∨
        (lb = none ∧ p.getLatestBlocks = .error e)) := by
  rcases p with ⟨gs, gp, gg, gl⟩
  cases gs <;> cases gp <;> cases gg <;> cases gl <;> cases lb <;>
    simp_all [getSystemStats, isErr]

/-- Witness for C2: a concrete run whose peer-count fetch fails is rejected,
with the rejection error being the peer-count error. -/
theorem getSystemStats_atomic_witness :
    (getSystemStats ⟨.ok ⟨true⟩, .error "peer fail", .ok 3, .ok []⟩ [] none).outcome =
      .rejected "peer fail" := by
  obtain ⟨e, he, hor⟩ :=
    getSystemStats_atomic ⟨.ok ⟨true⟩, .error "peer fail", .ok 3, .ok []⟩ [] none
      ⟨true⟩ rfl (Or.inl rfl)
  rcases hor with h | h | ⟨_, h⟩
  · cases h
    exact he
  · cases h
  · cases h

/-- C3 counterexample: a provider whose state fetch resolves with a
not-connected report.  All three optional fetches are still issued and the
call resolves successfully, refuting the claim that a not-connected report
prevents the fan-out and fails the call with a connectivity error. -/
theorem getSystemStats_no_connectivity_gate :
    (getSystemStats ⟨.ok ⟨false⟩, .ok 7, .ok 2, .ok []⟩ [] none).peerCountIssued =
        true ∧
      (getSystemStats ⟨.ok ⟨false⟩, .ok 7, .ok 2, .ok []⟩ [] none).gasPriceIssued =
        true ∧
      (getSystemStats ⟨.ok ⟨false⟩, .ok 7, .ok 2, .ok []⟩ [] none).latestBlocksIssued =
        true ∧
      (getSystemStats ⟨.ok ⟨false⟩, .ok 7, .ok 2, .ok []⟩ [] none).outcome =
        .resolved ⟨⟨false⟩, 7, 2, [], 0, [], 0⟩ := by
  refine ⟨rfl, rfl, rfl, ?_⟩
  simp [getSystemStats, getAverageDifficulty, getBlockTimes, getHashRate]

/-- C3 (amended): the state fetch strictly precedes the fan-out — none of the
peer-count, gas-price, or block-window fetches is issued before it settles,
and if it rejects none is issued at all (the call then never settles rather
than failing fast) — but the resolved state value is not inspected: whenever
the state fetch resolves, the fan-out is issued regardless of whether the
node reported itself connected. -/
theorem getSystemStats_state_sequencing (p : StatsProvider) (stored : List Block)
    (lb : Option (List Block)) :
    (∀ e, p.getState = .error e →
      (getSystemStats p stored lb).outcome = .pending ∧
        (getSystemStats p stored lb).peerCountIssued = false ∧
        (getSystemStats p stored lb).gasPriceIssued = false ∧
        (getSystemStats p stored lb).latestBlocksIssued = false) ∧
      (∀ st, p.getState = .ok st →
        (getSystemStats p stored lb).peerCountIssued = true ∧
          (getSystemStats p stored lb).gasPriceIssued = true ∧
          (getSystemStats p stored lb).latestBlocksIssued = lb.isNone) := by
  rcases p with ⟨gs, gp, gg, gl⟩
  cases gs <;> cases gp <;> cases gg <;> cases gl <;> cases lb <;>
    simp_all [getSystemStats]

/-- Witness for C3's amended theorem: with a rejected state fetch, nothing is
issued and the call stays pending. -/
theorem getSystemStats_state_sequencing_witness :
    (getSystemStats ⟨.error "down", .ok 7, .ok 2, .ok []⟩ [] none).outcome =
        .pending ∧
      (getSystemStats ⟨.error "down", .ok 7, .ok 2, .ok []⟩ [] none).peerCountIssued =
        false ∧
      (getSystemStats ⟨.error "down", .ok 7, .ok 2, .ok []⟩ [] none).gasPriceIssued =
        false ∧
      (getSystemStats ⟨.error "down", .ok 7, .ok 2, .ok []⟩ [] none).latestBlocksIssued =
        false :=
  (getSystemStats_state_sequencing ⟨.error "down", .ok 7, .ok 2, .ok []⟩ [] none).1
    "down" rfl

/-- C5: supplying a block window equal to the one the provider would deliver
yields the very same outcome as letting `getSystemStats` fetch it — in
particular numerically identical derived metrics (average difficulty,
block-time series, hash rate). -/
theorem getSystemStats_window_param_equiv (p : StatsProvider)
    (stored w : List Block) (h : p.getLatestBlocks = .ok w) :
    (getSystemStats p stored (some w)).outcome =
      (getSystemStats p stored none).outcome := by
  rcases p with ⟨gs, gp, gg, gl⟩
  cases gs <;> cases gp <;> cases gg <;> simp_all [getSystemStats]

/-- Witness for C5: a concrete provider delivering a one-block window gives
the same outcome whether the window is supplied or fetched. -/
theorem getSystemStats_window_param_equiv_witness :
    (getSystemStats ⟨.ok ⟨true⟩, .ok 7, .ok 2, .ok [⟨"0xa", 3, 50, 9⟩]⟩ []
        (some [⟨"0xa", 3, 50, 9⟩])).outcome =
      (getSystemStats ⟨.ok ⟨true⟩, .ok 7, .ok 2, .ok [⟨"0xa", 3, 50, 9⟩]⟩ []
        none).outcome :=
  getSystemStats_window_param_equiv ⟨.ok ⟨true⟩, .ok 7, .ok 2, .ok [⟨"0xa", 3, 50, 9⟩]⟩
    [] [⟨"0xa", 3, 50, 9⟩] rfl

/-- C6: `updateBlocks w` replaces the aggregator's cached window wholesale
with `w` and returns the same outcome as `getSystemStats` called with the
window `w` supplied. -/
theorem updateBlocks_equiv (p : StatsProvider) (stored w : List Block) :
    (updateBlocks p stored w).outcome =
        (getSystemStats p stored (some w)).outcome ∧
      (updateBlocks p stored w).finalWindow = w := by
  rcases p with ⟨gs, gp, gg, gl⟩
  cases gs <;> cases gp <;> cases gg <;> cases gl <;>
    simp [updateBlocks, getSystemStats]

/-- The hash rate vanishes whenever the window holds fewer than 2 blocks or
its most recent timestamp delta is zero. -/
theorem getHashRate_guard (w : List Block)
    (h : w.length < 2 ∨ recentDelta w = 0) : getHashRate w = 0 := by
  match w with
  | [] => rfl
  | [b] => rfl
  | b0 :: b1 :: t =>
    rcases h with h | h
    · simp at h
      omega
    · simp only [recentDelta] at h
      simp [getHashRate, h]

/-- C8: whenever `getSystemStats` resolves with a stats object whose window
holds fewer than 2 blocks or whose most recent block-time delta is zero, the
reported hash rate is zero — never infinite and never a division error. -/
theorem getSystemStats_hashRate_guard (p : StatsProvider) (stored : List Block)
    (lb : Option (List Block)) (s : SystemStats)
    (hres : (getSystemStats p stored lb).outcome = .resolved s)
    (hguard : s.latestBlocks.length < 2 ∨ recentDelta s.latestBlocks = 0) :
    s.hashRate = 0 := by
  have hrate : s.hashRate = getHashRate s.latestBlocks := by
    rcases p with ⟨gs, gp, gg, gl⟩
    cases gs <;> cases gp <;> cases gg <;> cases gl <;> cases lb <;>
      simp_all [getSystemStats] <;> cases hres <;> rfl
  rw [hrate]
  exact getHashRate_guard s.latestBlocks hguard

/-- Witness for C8: a concrete run over a two-block window with identical
timestamps resolves with hash rate zero. -/
theorem getSystemStats_hashRate_guard_witness :
    (SystemStats.mk ⟨true⟩ 1 1 [⟨"0xa", 2, 100, 50⟩, ⟨"0xb", 1, 100, 40⟩] 45 [0]
        0).hashRate = 0 :=
  getSystemStats_hashRate_guard ⟨.ok ⟨true⟩, .ok 1, .ok 1, .ok []⟩ []
    (some [⟨"0xa", 2, 100, 50⟩, ⟨"0xb", 1, 100, 40⟩])
    ⟨⟨true⟩, 1, 1, [⟨"0xa", 2, 100, 50⟩, ⟨"0xb", 1, 100, 40⟩], 45, [0], 0⟩
    (by simp [getSystemStats]
        norm_num [getAverageDifficulty, getBlockTimes, getHashRate])
    (by decide)

/-- C7: the constructor throws "Not connected to network" exactly when no
provider was obtainable from any source or the provider it settled on reports
not connected; consequently a constructed client's provider is always
connected. -/
theorem mixClientCtor_connectivity (env : CtorEnv) (uri : Option String)
    (w3 : Option Web3) :
    ((mixClientCtor env uri w3).result = .error "Not connected to network" ↔
      (selectWeb3 env uri w3 = none ∨
        ∃ w, selectWeb3 env uri w3 = some w ∧ w.connected = false)) ∧
      (∀ w, (mixClientCtor env uri w3).result = .ok w → w.connected = true) := by
  rcases hsel : selectWeb3 env uri w3 with _ | w
  · simp [mixClientCtor, hsel]
  · by_cases hw : w.connected <;> simp [mixClientCtor, hsel, hw]

/-- Witness for C7: with no URI, no storage, a failing connector and no
injected provider, construction throws. -/
theorem mixClientCtor_connectivity_witness :
    (mixClientCtor ⟨false, none, fun _ => none, none⟩ none none).result =
      .error "Not connected to network" :=
  (mixClientCtor_connectivity ⟨false, none, fun _ => none, none⟩ none none).1.mpr
    (Or.inl rfl)

/-- C10: when a web3 provider object is supplied to the constructor, no
connection is attempted to any node URI, the globally injected provider is
not consulted, and any constructed client carries exactly the supplied
object. -/
theorem mixClientCtor_param_precedence (env : CtorEnv) (uri : Option String)
    (w : Web3) :
    (mixClientCtor env uri (some w)).connectAttempted = none ∧
      (mixClientCtor env uri (some w)).globalUsed = false ∧
      ∀ c, (mixClientCtor env uri (some w)).result = .ok c → c = w := by
  by_cases hw : w.connected <;>
    simp [mixClientCtor, selectWeb3, hw, Option.isNone]

/-- Witness for C10: a concrete environment with a stored URI, a working
connector and an injected global provider, where the supplied object still
wins: no connection attempt, no global use, and the client carries the
supplied object. -/
theorem mixClientCtor_param_precedence_witness :
    (mixClientCtor ⟨true, some "stored", fun _ => some ⟨9, true⟩, some ⟨8, true⟩⟩
        (some "param") (some ⟨1, true⟩)).connectAttempted = none ∧
      (mixClientCtor ⟨true, some "stored", fun _ => some ⟨9, true⟩, some ⟨8, true⟩⟩
        (some "param") (some ⟨1, true⟩)).globalUsed = false ∧
      (⟨1, true⟩ : Web3) = ⟨1, true⟩ :=
  ⟨(mixClientCtor_param_precedence
      ⟨true, some "stored", fun _ => some ⟨9, true⟩, some ⟨8, true⟩⟩
      (some "param") ⟨1, true⟩).1,
    (mixClientCtor_param_precedence
      ⟨true, some "stored", fun _ => some ⟨9, true⟩, some ⟨8, true⟩⟩
      (some "param") ⟨1, true⟩).2.1,
    (mixClientCtor_param_precedence
      ⟨true, some "stored", fun _ => some ⟨9, true⟩, some ⟨8, true⟩⟩
      (some "param") ⟨1, true⟩).2.2 ⟨1, true⟩ rfl⟩

